import Mathlib

/-!
Shallow embedding of `main.py` of the `model_ml` repository: a FastAPI
service that classifies learner behaviour metrics into learning-style
clusters and renders a templated natural-language insight.

Python floats are modelled by `PFloat` (a finite rational, or one of the
non-finite values nan / inf / -inf); the Python fixed-point string
formatting `"\x7b:.Nf\x7d".format(x)` is modelled by `PFloat.formatFixed`
with round-half-to-even, the rounding CPython uses for floats.
The opaque pickled artifacts (`scaler`, `kmeans`) are modelled as
deterministic functions, following the adapter contract of the spec; the rest
of the file is a direct translation of the source.
-/

/-- Model of a Python float value as it matters to this program:
a finite value (as an exact rational) or a non-finite marker. -/
inductive PFloat where
  | finite (q : ℚ)
  | nan
  | inf
  | neginf
deriving DecidableEq, Repr, Inhabited

/-- Round the fraction `n / d` (with `d > 0`) to the nearest integer,
ties to even — the rounding that CPython fixed-point float formatting
applies. Stated over numerator and denominator so that it evaluates by
kernel reduction. -/
def roundHalfEvenScaled (n : ℤ) (d : ℕ) : ℤ :=
  let f : ℤ := Int.fdiv n d
  let r : ℤ := n - f * d
  if 2 * r < (d : ℤ) then f
  else if 2 * r > (d : ℤ) then f + 1
  else if f % 2 = 0 then f else f + 1

/-- Left-pad the decimal digits of `n` with zeros to `prec` characters. -/
def natDigitsPadded (prec : ℕ) (n : ℕ) : String :=
  let s := toString n
  String.mk (List.replicate (prec - s.length) '0') ++ s

/-- Fixed-point rendering `"\x7b:.Nf\x7d".format(q)` of a finite float `q`: round
`q * 10 ^ prec` half-to-even to an integer and print it as a fixed-point
numeral with `prec` digits after the decimal point (no point at all when
`prec = 0`), keeping the sign of a negative value that rounds to zero, as
CPython does. -/
def formatFixedQ (prec : ℕ) (q : ℚ) : String :=
  let scaled : ℤ := roundHalfEvenScaled (q.num * ((10 ^ prec : ℕ) : ℤ)) q.den
  let sign : String := if scaled < 0 ∨ (scaled = 0 ∧ q.num < 0) then "-" else ""
  let a : ℕ := scaled.natAbs
  let ip : ℕ := a / 10 ^ prec
  let fp : ℕ := a % 10 ^ prec
  if prec = 0 then sign ++ toString ip
  else sign ++ toString ip ++ "." ++ natDigitsPadded prec fp

/-- Non-finite rendering of `"\x7b:.Nf\x7d".format(x)`: CPython renders non-finite floats as the
literal texts nan / inf / -inf regardless of the precision spec. -/
def PFloat.formatFixed (prec : ℕ) : PFloat → String
  | .finite q => formatFixedQ prec q
  | .nan => "nan"
  | .inf => "inf"
  | .neginf => "-inf"

/-- One segment of a Python format string: literal text, or a named
numeric slot `\x7bname:.precf\x7d`. -/
inductive Seg where
  | lit (s : String)
  | slot (name : String) (prec : ℕ)
deriving DecidableEq, Repr

/-- Rendering of `template.format(**kwargs)` on one segment: a slot looks
its name up among the keyword arguments; a missing name is the Python
KeyError case. -/
def renderSeg (kwargs : List (String × PFloat)) : Seg → Except String String
  | .lit s => .ok s
  | .slot name prec =>
      match kwargs.lookup name with
      | some v => .ok (v.formatFixed prec)
      | none => .error name

/-- Rendering of `template.format(**kwargs)` over a whole template: concatenation of
the rendered segments, failing on the first missing slot name. -/
def renderTemplate (kwargs : List (String × PFloat)) : List Seg → Except String String
  | [] => .ok ""
  | seg :: rest =>
      match renderSeg kwargs seg with
      | .error e => .error e
      | .ok s =>
          match renderTemplate kwargs rest with
          | .error e => .error e
          | .ok r => .ok (s ++ r)

/-- Python `dict.get` / `in` lookup over an association list keyed by the
cluster id, first match wins (keys in these tables are distinct). -/
def dictGet {β : Type} (d : List (ℤ × β)) (k : ℤ) : Option β :=
  match d with
  | [] => none
  | (k', v) :: rest => if k = k' then some v else dictGet rest k

/-- One entry of `CLUSTER_PROFILES` in `main.py`: display label,
free-text description and concept tag for a cluster. -/
structure ClusterProfile where
  label_id : String
  short_description : String
  concept_tag : String
deriving DecidableEq, Repr

/-- Table `CLUSTER_PROFILES` from `main.py`. -/
def CLUSTER_PROFILES : List (ℤ × ClusterProfile) := [
  (0, { label_id := "Fast Learner",
        short_description := "Aktivitas belajar masih jarang, tetapi ketika mulai belajar mampu menyelesaikan modul dengan sangat cepat dan mempertahankan nilai ujian yang cukup baik. Volume journey relatif rendah dan hampir tidak ada revisi submission.",
        concept_tag := "fast_learner" }),
  (1, { label_id := "Consistent Learner",
        short_description := "Belajar secara konsisten, menyelesaikan banyak journey, dan memiliki nilai ujian yang tinggi. Tingkat refleksi berada pada kisaran sedang.",
        concept_tag := "consistent_learner" }),
  (2, { label_id := "Reflective Learner",
        short_description := "Sangat sering aktif dan menyelesaikan banyak journey, namun membutuhkan waktu yang panjang per modul. Cenderung mengulas materi secara mendalam.",
        concept_tag := "reflective_learner" }),
  (3, { label_id := "Struggling Learner",
        short_description := "Cukup aktif dan banyak bereksperimen dengan submission (revisi tinggi), namun nilai ujian relatif rendah sehingga masih perlu penguatan konsep.",
        concept_tag := "struggling_learner" })]

/-- Template of `CLUSTER_TEMPLATES[0]` in `main.py`, split into literal
text and format slots. -/
def template0 : List Seg := [
  .lit "Aktivitas belajarmu masih jarang (sekitar ", .slot "active_days" 0,
  .lit " hari aktif), tetapi ketika mulai belajar kamu bergerak sangat cepat dengan rata-rata waktu selesai sekitar ",
  .slot "avg_time_hours" 1,
  .lit " jam per modul. Kamu telah menyelesaikan sekitar ", .slot "journeys" 0,
  .lit " journey dengan nilai ujian rata-rata ", .slot "score" 0,
  .lit ". Cobalah meningkatkan frekuensi belajar agar dampak pembelajaranmu lebih konsisten."]

/-- Template of `CLUSTER_TEMPLATES[1]` in `main.py`. -/
def template1 : List Seg := [
  .lit "Kamu belajar secara cukup konsisten (sekitar ", .slot "active_days" 0,
  .lit " hari aktif) dan telah menyelesaikan sekitar ", .slot "journeys" 0,
  .lit " journey. Nilai ujian rata-ratamu tinggi, yaitu sekitar ", .slot "score" 0,
  .lit ". Tingkat refleksi melalui submission yang ditolak berada di kisaran ",
  .slot "rejection_ratio" 2,
  .lit ". Pertahankan pola belajar ini dan gunakan umpan balik untuk terus menyempurnakan pemahamanmu."]

/-- Template of `CLUSTER_TEMPLATES[2]` in `main.py`. -/
def template2 : List Seg := [
  .lit "Kamu sangat tekun dengan sekitar ", .slot "active_days" 0,
  .lit " hari aktif dan telah menyelesaikan sekitar ", .slot "journeys" 0,
  .lit " journey. Rata-rata waktu yang kamu habiskan per modul cukup panjang, sekitar ",
  .slot "avg_time_hours" 1,
  .lit " jam. Nilai ujian rata-ratamu sekitar ", .slot "score" 0,
  .lit ". Pertahankan kedalaman belajarmu, namun pertimbangkan pengelolaan waktu belajar yang lebih efisien."]

/-- Template of `CLUSTER_TEMPLATES[3]` in `main.py`. -/
def template3 : List Seg := [
  .lit "Kamu cukup aktif belajar (sekitar ", .slot "active_days" 0,
  .lit " hari aktif) dan telah menyelesaikan sekitar ", .slot "journeys" 0,
  .lit " journey. Rata-rata nilai ujianmu saat ini sekitar ", .slot "score" 0,
  .lit ", dengan rasio submission ditolak sekitar ", .slot "rejection_ratio" 2,
  .lit ". Ini menunjukkan kamu banyak bereksperimen, tetapi masih perlu memperkuat pemahaman konsep dasar. Manfaatkan kembali materi, contoh solusi, dan umpan balik dari submission untuk meningkatkan hasil ujian."]

/-- Table `CLUSTER_TEMPLATES` from `main.py`. -/
def CLUSTER_TEMPLATES : List (ℤ × List Seg) := [
  (0, template0), (1, template1), (2, template2), (3, template3)]

/-- One row of the `clustered_students.csv` dataframe, after the
`astype(int)` cast of its `cluster_label` column. -/
structure Row where
  developer_id : ℤ
  developer_name : String
  cluster_label : ℤ
  total_active_days : PFloat
  avg_completion_time_hours : PFloat
  total_journeys_completed : PFloat
  rejection_ratio : PFloat
  avg_exam_score : PFloat
deriving DecidableEq, Repr

/-- The dictionary built by `generate_insight_for_row` (also the shape of
`InsightResponse`). -/
structure InsightDict where
  developer_id : ℤ
  developer_name : String
  cluster_id : ℤ
  cluster_label : String
  concept_tag : Option String
  short_description : String
  insight_text : String
deriving DecidableEq, Repr, Inhabited

/-- Schema `PredictRequest` from `main.py`. -/
structure PredictRequest where
  total_active_days : PFloat
  avg_completion_time_hours : PFloat
  total_journeys_completed : PFloat
  rejection_ratio : PFloat
  avg_exam_score : PFloat
  developer_id : Option ℤ := none
  developer_name : Option String := none
deriving DecidableEq, Repr

/-- Schema `PredictResponse` from `main.py`. -/
structure PredictResponse where
  developer_id : Option ℤ
  developer_name : Option String
  cluster_id : ℤ
  cluster_label : String
  concept_tag : Option String
  short_description : String
  insight_text : String
deriving DecidableEq, Repr

/-- Model of the Python idiom `x or dflt` for `x : Optional[str]`: `None` and the empty
string are falsy, any other string is returned unchanged. -/
def pyOrStr (x : Option String) (dflt : String) : String :=
  match x with
  | some s => if s = "" then dflt else s
  | none => dflt

/-- Function `generate_insight_for_row` from `main.py`: profile and template are
looked up with fallbacks (`\x7b\x7d` and the empty template), the template
is formatted against the five feature values of the row, and the response
dictionary is assembled. `template.format` can in principle raise a
KeyError, hence the `Except`. -/
def generate_insight_for_row (row : Row) : Except String InsightDict :=
  let cluster_id := row.cluster_label
  let profile := dictGet CLUSTER_PROFILES cluster_id
  let template := (dictGet CLUSTER_TEMPLATES cluster_id).getD []
  match renderTemplate
      [("active_days", row.total_active_days),
       ("avg_time_hours", row.avg_completion_time_hours),
       ("journeys", row.total_journeys_completed),
       ("rejection_ratio", row.rejection_ratio),
       ("score", row.avg_exam_score)] template with
  | .error e => .error e
  | .ok insight_text =>
      .ok { developer_id := row.developer_id
            developer_name := row.developer_name
            cluster_id := cluster_id
            cluster_label := ((profile.map fun p => p.label_id).getD
              ("Cluster " ++ toString cluster_id))
            concept_tag := profile.map fun p => p.concept_tag
            short_description := (profile.map fun p => p.short_description).getD ""
            insight_text := insight_text }

/-- The pickled `scaler` artifact, modelled per the adapter
contract in the spec as a deterministic transform on a feature row. -/
structure Scaler where
  transform : List PFloat → List PFloat

/-- The pickled `kmeans` artifact, modelled per the adapter
contract in the spec as a deterministic nearest-centroid assignment returning the
integer id of the chosen cluster for the (single) input row. -/
structure KMeans where
  predict : List PFloat → ℤ

/-- The module-level state left by the artifact-loading block of
`main.py`: `scaler`, `kmeans` and `df_clustered`, each `None` when
loading failed. -/
structure AppState where
  scaler : Option Scaler
  kmeans : Option KMeans
  df_clustered : Option (List Row)

/-- The error outcomes of an endpoint: a FastAPI `HTTPException` with a
status code and detail text, or an uncaught Python exception message. -/
inductive ApiError where
  | http (status : ℕ) (detail : String)
  | exn (msg : String)
deriving DecidableEq, Repr

/-- List `REQUIRED_COLS` from `main.py`. -/
def REQUIRED_COLS : List String := [
  "developer_id",
  "developer_name",
  "cluster_label",
  "total_active_days",
  "avg_completion_time_hours",
  "total_journeys_completed",
  "rejection_ratio",
  "avg_exam_score"]

/-- The raw dataframe read from `clustered_students.csv`: its column
names, and its rows (typed; the `astype(int)` cast of `cluster_label` is
subsumed by the `Row` type). -/
structure RawDf where
  columns : List String
  rows : List Row

/-- The module-level `try/except` of `main.py` that loads all three
artifacts: the scaler, the kmeans model, and the dataframe (including the
required-column check, which raises a ValueError inside the same block).
Any failure at any step lands in the one `except` handler, which sets all
three globals to `None`. -/
def loadArtifacts (sres : Except String Scaler) (kres : Except String KMeans)
    (dres : Except String RawDf) : AppState :=
  match sres, kres, dres with
  | .ok scaler, .ok kmeans, .ok df =>
      let missing_cols := REQUIRED_COLS.filter fun c => !(df.columns.contains c)
      if missing_cols.isEmpty then
        { scaler := some scaler, kmeans := some kmeans, df_clustered := some df.rows }
      else
        { scaler := none, kmeans := none, df_clustered := none }
  | _, _, _ => { scaler := none, kmeans := none, df_clustered := none }

/-- The `/health` response body. -/
structure HealthResponse where
  status : String
  model_loaded : Bool
  data_loaded : Bool
deriving DecidableEq, Repr

/-- Endpoint `health_check` from `main.py`. -/
def health_check (st : AppState) : HealthResponse :=
  { status := "ok"
    model_loaded := st.kmeans.isSome && st.scaler.isSome
    data_loaded := st.df_clustered.isSome }

/-- Endpoint `get_insight_by_developer_id` from `main.py`: 500 when the dataframe
is not loaded, 404 when no row matches, else the insight of the first
matching row. -/
def get_insight_by_developer_id (st : AppState) (developer_id : ℤ) :
    Except ApiError InsightDict :=
  match st.df_clustered with
  | none => .error (.http 500 "Data clustering belum ter-load.")
  | some df =>
      match df.filter fun r => r.developer_id == developer_id with
      | [] => .error (.http 404 "Developer ID tidak ditemukan di data clustering.")
      | row :: _ =>
          match generate_insight_for_row row with
          | .error e => .error (.exn e)
          | .ok i => .ok i

/-- The list comprehension of `list_insights`: `generate_insight_for_row`
over each row in order, an exception in any row aborting the request. -/
def insightsForRows : List Row → Except ApiError (List InsightDict)
  | [] => .ok []
  | r :: rest =>
      match generate_insight_for_row r with
      | .error e => .error (.exn e)
      | .ok i =>
          match insightsForRows rest with
          | .error e => .error e
          | .ok tl => .ok (i :: tl)

/-- Endpoint `list_insights` from `main.py`, including the FastAPI
`Query(10, ge=1, le=100)` range validation, which rejects an
out-of-range `limit` with a 422 before the handler body runs. -/
def list_insights (st : AppState) (limit : ℤ) : Except ApiError (List InsightDict) :=
  if limit < 1 ∨ limit > 100 then
    .error (.http 422 "limit out of allowed range 1..100")
  else
    match st.df_clustered with
    | none => .error (.http 500 "Data clustering belum ter-load.")
    | some df => insightsForRows (df.take limit.toNat)

/-- The `/insights` route as callers see it: an omitted `limit` query
parameter defaults to 10 per `Query(10, ge=1, le=100)`. -/
def list_insights_route (st : AppState) (limit : Option ℤ) :
    Except ApiError (List InsightDict) :=
  list_insights st (limit.getD 10)

/-- Endpoint `predict_cluster` from `main.py`: reject with a 500 when the scaler
or the model is unavailable, otherwise scale the fixed-order feature
vector, take the cluster id from the model, and assemble the response with the
same profile/template fallbacks as the lookup path. -/
def predict_cluster (st : AppState) (payload : PredictRequest) :
    Except ApiError PredictResponse :=
  match st.scaler, st.kmeans with
  | some scaler, some kmeans =>
      let X : List PFloat := [
        payload.total_active_days,
        payload.avg_completion_time_hours,
        payload.total_journeys_completed,
        payload.rejection_ratio,
        payload.avg_exam_score]
      let X_scaled := scaler.transform X
      let cluster_id : ℤ := kmeans.predict X_scaled
      let profile := dictGet CLUSTER_PROFILES cluster_id
      let template := (dictGet CLUSTER_TEMPLATES cluster_id).getD []
      match renderTemplate
          [("active_days", payload.total_active_days),
           ("avg_time_hours", payload.avg_completion_time_hours),
           ("journeys", payload.total_journeys_completed),
           ("rejection_ratio", payload.rejection_ratio),
           ("score", payload.avg_exam_score)] template with
      | .error e => .error (.exn e)
      | .ok insight_text =>
          .ok { developer_id := payload.developer_id
                developer_name := some (pyOrStr payload.developer_name "Unknown")
                cluster_id := cluster_id
                cluster_label := ((profile.map fun p => p.label_id).getD
                  ("Cluster " ++ toString cluster_id))
                concept_tag := profile.map fun p => p.concept_tag
                short_description := (profile.map fun p => p.short_description).getD ""
                insight_text := insight_text }
  | _, _ => .error (.http 500 "Model belum ter-load.")

/-- The slot names every `format` call of `main.py` supplies: both
`generate_insight_for_row` and `predict_cluster` pass exactly these five
keyword arguments. -/
def FEATURE_KEYS : List String :=
  ["active_days", "avg_time_hours", "journeys", "rejection_ratio", "score"]

/-- Check that every slot name of a template occurs among `keys` — the
condition under which `template.format` cannot raise a KeyError. -/
def slotNamesOk (keys : List String) : List Seg → Bool
  | [] => true
  | .lit _ :: rest => slotNamesOk keys rest
  | .slot n _ :: rest => keys.contains n && slotNamesOk keys rest

/-- The string `renderTemplate` yields when it succeeds (arbitrary when
it fails); lets successful renders be named in equations. -/
def renderOut (kwargs : List (String × PFloat)) (t : List Seg) : String :=
  match renderTemplate kwargs t with
  | .ok s => s
  | .error e => e

/-- The insight dictionary `generate_insight_for_row` yields when it
succeeds (arbitrary when it fails); lets successful generations be named
in equations. -/
def genRow (r : Row) : InsightDict :=
  match generate_insight_for_row r with
  | .ok i => i
  | .error _ => default

/-- The ordered list of (slot name, decimal places) pairs of a template,
i.e. the display formats its `format` call applies. -/
def slotPrecs : List Seg → List (String × ℕ)
  | [] => []
  | .lit _ :: rest => slotPrecs rest
  | .slot n p :: rest => (n, p) :: slotPrecs rest

/-- Concrete inputs used by the witness theorems below: a transparent
identity scaler, a model assigning every vector to cluster 7 (an id
outside both tables), and concrete rows and payloads. -/
def scId : Scaler := { transform := fun v => v }

def km7 : KMeans := { predict := fun _ => 7 }

def row7 : Row :=
  { developer_id := 1, developer_name := "Alice", cluster_label := 7,
    total_active_days := .finite 2, avg_completion_time_hours := .finite (mkRat 3 2),
    total_journeys_completed := .finite 3, rejection_ratio := .finite (mkRat 1 20),
    avg_exam_score := .finite 88 }

def payloadW : PredictRequest :=
  { total_active_days := .finite 2, avg_completion_time_hours := .finite (mkRat 3 2),
    total_journeys_completed := .finite 3, rejection_ratio := .finite (mkRat 1 20),
    avg_exam_score := .finite 88, developer_id := some 9, developer_name := none }

def payloadEmptyName : PredictRequest :=
  { total_active_days := .finite 2, avg_completion_time_hours := .finite (mkRat 3 2),
    total_journeys_completed := .finite 3, rejection_ratio := .finite (mkRat 1 20),
    avg_exam_score := .finite 88, developer_id := some 9, developer_name := some "" }

def row0 : Row :=
  { developer_id := 1, developer_name := "Alice", cluster_label := 0,
    total_active_days := .finite 2, avg_completion_time_hours := .finite (mkRat 3 2),
    total_journeys_completed := .finite 3, rejection_ratio := .finite (mkRat 1 20),
    avg_exam_score := .finite 88 }

def rowB : Row :=
  { developer_id := 2, developer_name := "Bob", cluster_label := 9,
    total_active_days := .finite 40, avg_completion_time_hours := .finite 8,
    total_journeys_completed := .finite 12, rejection_ratio := .finite (mkRat 3 10),
    avg_exam_score := .finite 60 }

def dfW : List Row := [row7, rowB]

lemma lookup_isSome_of_key_mem {β : Type} (l : List (String × β)) (name : String)
    (h : name ∈ l.map Prod.fst) : (l.lookup name).isSome := by
  induction l with
  | nil => simp at h
  | cons p rest ih =>
      obtain ⟨k, v⟩ := p
      rw [List.map_cons, List.mem_cons] at h
      by_cases he : name = k
      · have hb : (name == k) = true := beq_iff_eq.mpr he
        simp only [List.lookup, hb, Option.isSome_some]
      · have hb : (name == k) = false := beq_eq_false_iff_ne.mpr he
        have h' : name ∈ rest.map Prod.fst := by
          rcases h with h | h
          · exact absurd h he
          · exact h
        simpa only [List.lookup, hb] using ih h'

lemma renderTemplate_ok (kwargs : List (String × PFloat)) (t : List Seg)
    (h : slotNamesOk (kwargs.map Prod.fst) t = true) :
    ∃ s, renderTemplate kwargs t = .ok s := by
  induction t with
  | nil => exact ⟨"", rfl⟩
  | cons seg rest ih =>
      cases seg with
      | lit s =>
          rw [slotNamesOk] at h
          obtain ⟨r, hr⟩ := ih h
          exact ⟨s ++ r, by simp only [renderTemplate, renderSeg, hr]⟩
      | slot n p =>
          rw [slotNamesOk, Bool.and_eq_true] at h
          obtain ⟨h1, h2⟩ := h
          have hlk : (kwargs.lookup n).isSome := by
            apply lookup_isSome_of_key_mem
            simpa using h1
          obtain ⟨v, hv⟩ := Option.isSome_iff_exists.mp hlk
          obtain ⟨r, hr⟩ := ih h2
          exact ⟨v.formatFixed p ++ r, by simp only [renderTemplate, renderSeg, hv, hr]⟩

lemma renderTemplate_eq_renderOut (kwargs : List (String × PFloat)) (t : List Seg)
    (h : slotNamesOk (kwargs.map Prod.fst) t = true) :
    renderTemplate kwargs t = .ok (renderOut kwargs t) := by
  obtain ⟨s, hs⟩ := renderTemplate_ok kwargs t h
  rw [renderOut, hs]

lemma templates_slots_ok (cid : ℤ) :
    slotNamesOk FEATURE_KEYS ((dictGet CLUSTER_TEMPLATES cid).getD []) = true := by
  by_cases h0 : cid = 0
  · subst h0; decide
  by_cases h1 : cid = 1
  · subst h1; decide
  by_cases h2 : cid = 2
  · subst h2; decide
  by_cases h3 : cid = 3
  · subst h3; decide
  simp only [CLUSTER_TEMPLATES, dictGet, h0, h1, h2, h3, if_false, Option.getD_none]
  rfl

lemma dictGet_profiles_eq_none (cid : ℤ)
    (h0 : cid ≠ 0) (h1 : cid ≠ 1) (h2 : cid ≠ 2) (h3 : cid ≠ 3) :
    dictGet CLUSTER_PROFILES cid = none := by
  simp only [CLUSTER_PROFILES, dictGet, h0, h1, h2, h3, if_false]

lemma dictGet_profiles_none_cases (cid : ℤ)
    (h : dictGet CLUSTER_PROFILES cid = none) :
    cid ≠ 0 ∧ cid ≠ 1 ∧ cid ≠ 2 ∧ cid ≠ 3 := by
  refine ⟨?_, ?_, ?_, ?_⟩ <;> rintro rfl <;> simp [CLUSTER_PROFILES, dictGet] at h

lemma dictGet_templates_eq_none (cid : ℤ)
    (h0 : cid ≠ 0) (h1 : cid ≠ 1) (h2 : cid ≠ 2) (h3 : cid ≠ 3) :
    dictGet CLUSTER_TEMPLATES cid = none := by
  simp only [CLUSTER_TEMPLATES, dictGet, h0, h1, h2, h3, if_false]

lemma dictGet_templates_none_cases (cid : ℤ)
    (h : dictGet CLUSTER_TEMPLATES cid = none) :
    cid ≠ 0 ∧ cid ≠ 1 ∧ cid ≠ 2 ∧ cid ≠ 3 := by
  refine ⟨?_, ?_, ?_, ?_⟩ <;> rintro rfl <;> simp [CLUSTER_TEMPLATES, dictGet] at h

lemma generate_insight_ok (r : Row) :
    generate_insight_for_row r = .ok (genRow r) := by
  have hs := renderTemplate_eq_renderOut
    [("active_days", r.total_active_days),
     ("avg_time_hours", r.avg_completion_time_hours),
     ("journeys", r.total_journeys_completed),
     ("rejection_ratio", r.rejection_ratio),
     ("score", r.avg_exam_score)]
    ((dictGet CLUSTER_TEMPLATES r.cluster_label).getD [])
    (templates_slots_ok r.cluster_label)
  rw [genRow]
  simp only [generate_insight_for_row, hs]

lemma genRow_fields (r : Row) :
    (genRow r).developer_id = r.developer_id ∧
    (genRow r).developer_name = r.developer_name ∧
    (genRow r).cluster_id = r.cluster_label ∧
    (genRow r).cluster_label =
      ((dictGet CLUSTER_PROFILES r.cluster_label).map fun p => p.label_id).getD
        ("Cluster " ++ toString r.cluster_label) ∧
    (genRow r).concept_tag =
      ((dictGet CLUSTER_PROFILES r.cluster_label).map fun p => p.concept_tag) ∧
    (genRow r).short_description =
      ((dictGet CLUSTER_PROFILES r.cluster_label).map fun p => p.short_description).getD "" ∧
    (genRow r).insight_text =
      renderOut
        [("active_days", r.total_active_days),
         ("avg_time_hours", r.avg_completion_time_hours),
         ("journeys", r.total_journeys_completed),
         ("rejection_ratio", r.rejection_ratio),
         ("score", r.avg_exam_score)]
        ((dictGet CLUSTER_TEMPLATES r.cluster_label).getD []) := by
  have hs := renderTemplate_eq_renderOut
    [("active_days", r.total_active_days),
     ("avg_time_hours", r.avg_completion_time_hours),
     ("journeys", r.total_journeys_completed),
     ("rejection_ratio", r.rejection_ratio),
     ("score", r.avg_exam_score)]
    ((dictGet CLUSTER_TEMPLATES r.cluster_label).getD [])
    (templates_slots_ok r.cluster_label)
  rw [genRow]
  simp [generate_insight_for_row, hs]

lemma predict_cluster_some (sc : Scaler) (km : KMeans) (dfo : Option (List Row))
    (payload : PredictRequest) :
    predict_cluster { scaler := some sc, kmeans := some km, df_clustered := dfo } payload =
      .ok { developer_id := payload.developer_id
            developer_name := some (pyOrStr payload.developer_name "Unknown")
            cluster_id := km.predict (sc.transform [
              payload.total_active_days,
              payload.avg_completion_time_hours,
              payload.total_journeys_completed,
              payload.rejection_ratio,
              payload.avg_exam_score])
            cluster_label := ((dictGet CLUSTER_PROFILES (km.predict (sc.transform [
              payload.total_active_days,
              payload.avg_completion_time_hours,
              payload.total_journeys_completed,
              payload.rejection_ratio,
              payload.avg_exam_score]))).map fun p => p.label_id).getD
              ("Cluster " ++ toString (km.predict (sc.transform [
                payload.total_active_days,
                payload.avg_completion_time_hours,
                payload.total_journeys_completed,
                payload.rejection_ratio,
                payload.avg_exam_score])))
            concept_tag := (dictGet CLUSTER_PROFILES (km.predict (sc.transform [
              payload.total_active_days,
              payload.avg_completion_time_hours,
              payload.total_journeys_completed,
              payload.rejection_ratio,
              payload.avg_exam_score]))).map fun p => p.concept_tag
            short_description := ((dictGet CLUSTER_PROFILES (km.predict (sc.transform [
              payload.total_active_days,
              payload.avg_completion_time_hours,
              payload.total_journeys_completed,
              payload.rejection_ratio,
              payload.avg_exam_score]))).map fun p => p.short_description).getD ""
            insight_text := renderOut
              [("active_days", payload.total_active_days),
               ("avg_time_hours", payload.avg_completion_time_hours),
               ("journeys", payload.total_journeys_completed),
               ("rejection_ratio", payload.rejection_ratio),
               ("score", payload.avg_exam_score)]
              ((dictGet CLUSTER_TEMPLATES (km.predict (sc.transform [
                payload.total_active_days,
                payload.avg_completion_time_hours,
                payload.total_journeys_completed,
                payload.rejection_ratio,
                payload.avg_exam_score]))).getD []) } := by
  have hs := renderTemplate_eq_renderOut
    [("active_days", payload.total_active_days),
     ("avg_time_hours", payload.avg_completion_time_hours),
     ("journeys", payload.total_journeys_completed),
     ("rejection_ratio", payload.rejection_ratio),
     ("score", payload.avg_exam_score)]
    ((dictGet CLUSTER_TEMPLATES (km.predict (sc.transform [
      payload.total_active_days,
      payload.avg_completion_time_hours,
      payload.total_journeys_completed,
      payload.rejection_ratio,
      payload.avg_exam_score]))).getD [])
    (templates_slots_ok _)
  simp only [predict_cluster, hs]

lemma insightsForRows_ok (rows : List Row) :
    insightsForRows rows = .ok (rows.map genRow) := by
  induction rows with
  | nil => rfl
  | cons r rest ih =>
      simp only [insightsForRows, generate_insight_ok r, ih, List.map_cons]

/-- Claim C1: for an integer cluster id absent from the cluster profile
table, resolving an insight on the dataset-lookup path and on the
predict path succeeds for any feature values and returns the fallback
label (the text Cluster followed by the id), an empty short description
and no concept tag. -/
theorem c1_missing_profile_fallback (cid : ℤ)
    (hprof : dictGet CLUSTER_PROFILES cid = none) :
    (∀ row : Row, row.cluster_label = cid →
      ∃ res, generate_insight_for_row row = .ok res ∧
        res.cluster_label = "Cluster " ++ toString cid ∧
        res.short_description = "" ∧
        res.concept_tag = none) ∧
    (∀ (sc : Scaler) (km : KMeans) (dfo : Option (List Row)) (payload : PredictRequest),
      km.predict (sc.transform [
        payload.total_active_days,
        payload.avg_completion_time_hours,
        payload.total_journeys_completed,
        payload.rejection_ratio,
        payload.avg_exam_score]) = cid →
      ∃ res,
        predict_cluster { scaler := some sc, kmeans := some km, df_clustered := dfo }
          payload = .ok res ∧
        res.cluster_label = "Cluster " ++ toString cid ∧
        res.short_description = "" ∧
        res.concept_tag = none) := by
  constructor
  · intro row hrow
    obtain ⟨_, _, _, h4, h5, h6, _⟩ := genRow_fields row
    refine ⟨genRow row, generate_insight_ok row, ?_, ?_, ?_⟩
    · rw [h4, hrow, hprof]; rfl
    · rw [h6, hrow, hprof]; rfl
    · rw [h5, hrow, hprof]; rfl
  · intro sc km dfo payload hcid
    refine ⟨_, predict_cluster_some sc km dfo payload, ?_, ?_, ?_⟩ <;>
      simp only [hcid, hprof, Option.map_none, Option.getD_none]
    · rfl
    · rfl
    · rfl

/-- Witness for the C1 theorem at cluster id 7 and concrete inputs. -/
theorem c1_witness :
    (∃ res, generate_insight_for_row row7 = .ok res ∧
      res.cluster_label = "Cluster " ++ toString (7 : ℤ) ∧
      res.short_description = "" ∧
      res.concept_tag = none) ∧
    (∃ res,
      predict_cluster { scaler := some scId, kmeans := some km7, df_clustered := none }
        payloadW = .ok res ∧
      res.cluster_label = "Cluster " ++ toString (7 : ℤ) ∧
      res.short_description = "" ∧
      res.concept_tag = none) :=
  ⟨(c1_missing_profile_fallback 7 rfl).1 row7 rfl,
   (c1_missing_profile_fallback 7 rfl).2 scId km7 none payloadW rfl⟩

/-- Claim C6: for an integer cluster id absent from the insight template
table, resolving an insight on the dataset-lookup path and on the
predict path does not fail and returns an empty insight_text. -/
theorem c6_missing_template_empty_text (cid : ℤ)
    (htmpl : dictGet CLUSTER_TEMPLATES cid = none) :
    (∀ row : Row, row.cluster_label = cid →
      ∃ res, generate_insight_for_row row = .ok res ∧ res.insight_text = "") ∧
    (∀ (sc : Scaler) (km : KMeans) (dfo : Option (List Row)) (payload : PredictRequest),
      km.predict (sc.transform [
        payload.total_active_days,
        payload.avg_completion_time_hours,
        payload.total_journeys_completed,
        payload.rejection_ratio,
        payload.avg_exam_score]) = cid →
      ∃ res,
        predict_cluster { scaler := some sc, kmeans := some km, df_clustered := dfo }
          payload = .ok res ∧
        res.insight_text = "") := by
  constructor
  · intro row hrow
    obtain ⟨_, _, _, _, _, _, h7⟩ := genRow_fields row
    refine ⟨genRow row, generate_insight_ok row, ?_⟩
    rw [h7, hrow, htmpl]
    rfl
  · intro sc km dfo payload hcid
    refine ⟨_, predict_cluster_some sc km dfo payload, ?_⟩
    simp only [hcid, htmpl, Option.getD_none]
    rfl

/-- Witness for the C6 theorem at cluster id 7 and concrete inputs. -/
theorem c6_witness :
    (∃ res, generate_insight_for_row row7 = .ok res ∧ res.insight_text = "") ∧
    (∃ res,
      predict_cluster { scaler := some scId, kmeans := some km7, df_clustered := none }
        payloadW = .ok res ∧
      res.insight_text = "") :=
  ⟨(c6_missing_template_empty_text 7 rfl).1 row7 rfl,
   (c6_missing_template_empty_text 7 rfl).2 scId km7 none payloadW rfl⟩

/-- Claim C2: a predict call fails exactly when the scaler or the model
was never initialized, the failure is the ModelUnavailable error (the
500 with detail Model belum ter-load., raised before any model
computation), and health reports model_loaded = false in exactly the
same condition. -/
theorem c2_model_unavailable_iff (st : AppState) (payload : PredictRequest) :
    ((∃ e, predict_cluster st payload = .error e) ↔
      (st.scaler = none ∨ st.kmeans = none)) ∧
    ((st.scaler = none ∨ st.kmeans = none) →
      predict_cluster st payload = .error (.http 500 "Model belum ter-load.")) ∧
    ((health_check st).model_loaded = false ↔
      (st.scaler = none ∨ st.kmeans = none)) := by
  obtain ⟨so, ko, dfo⟩ := st
  cases so with
  | none =>
      cases ko <;> simp [predict_cluster, health_check]
  | some sc =>
      cases ko with
      | none => simp [predict_cluster, health_check]
      | some km =>
          refine ⟨?_, ?_, ?_⟩
          · constructor
            · rintro ⟨e, he⟩
              rw [predict_cluster_some] at he
              exact absurd he (by simp)
            · rintro (h | h) <;> simp at h
          · rintro (h | h) <;> simp at h
          · simp [health_check]

/-- Witness for the C2 theorem at the all-None state. -/
theorem c2_witness :
    predict_cluster { scaler := none, kmeans := none, df_clustered := none } payloadW =
      .error (.http 500 "Model belum ter-load.") :=
  (c2_model_unavailable_iff
    { scaler := none, kmeans := none, df_clustered := none } payloadW).2.1 (Or.inl rfl)

/-- Claim C10: on the predict path the response carries developer_id
through unchanged (including when absent), and developer_name becomes
the literal Unknown both when absent and when supplied as the empty
string (the falsy string), while a non-empty supplied name is carried
through unchanged. -/
theorem c10_predict_identity_fields (sc : Scaler) (km : KMeans) (dfo : Option (List Row))
    (payload : PredictRequest) :
    ∃ res,
      predict_cluster { scaler := some sc, kmeans := some km, df_clustered := dfo }
        payload = .ok res ∧
      res.developer_id = payload.developer_id ∧
      (payload.developer_name = none → res.developer_name = some "Unknown") ∧
      (payload.developer_name = some "" → res.developer_name = some "Unknown") ∧
      (∀ nm, payload.developer_name = some nm → nm ≠ "" →
        res.developer_name = some nm) := by
  refine ⟨_, predict_cluster_some sc km dfo payload, rfl, ?_, ?_, ?_⟩
  · intro h; simp [pyOrStr, h]
  · intro h; simp [pyOrStr, h]
  · intro nm h hne; simp [pyOrStr, h, hne]

/-- Witness for the C10 theorem with an empty-string developer name. -/
theorem c10_witness :
    ((predict_cluster
        { scaler := some scId, kmeans := some km7, df_clustered := none }
        payloadEmptyName).map fun r => r.developer_name) = .ok (some "Unknown") ∧
    ((predict_cluster
        { scaler := some scId, kmeans := some km7, df_clustered := none }
        payloadEmptyName).map fun r => r.developer_id) = .ok (some 9) := by
  obtain ⟨res, hres, hid, _, hempty, _⟩ :=
    c10_predict_identity_fields scId km7 none payloadEmptyName
  rw [hres]
  constructor
  · show Except.ok res.developer_name = Except.ok (some "Unknown")
    rw [hempty rfl]
  · show Except.ok res.developer_id = Except.ok (some 9)
    rw [hid]
    rfl

/-- Claim C3 as stated is false on the code: the cluster-0 template (and
likewise the cluster-2 template) formats avg_time_hours with ONE decimal
place, not two — rendering 1.5 there yields the text 1.5, not 1.50. -/
theorem c3_counterexample :
    dictGet CLUSTER_TEMPLATES 0 = some template0 ∧
    Seg.slot "avg_time_hours" 1 ∈ template0 ∧
    (1 : ℕ) ≠ 2 ∧
    PFloat.formatFixed 1 (.finite (mkRat 3 2)) = "1.5" ∧
    PFloat.formatFixed 2 (.finite (mkRat 3 2)) = "1.50" :=
  ⟨rfl, by decide, by decide, by decide, by decide⟩

/-- Claim C3 amended: in every template in which each slot appears,
active_days, journeys and score are formatted as integers (zero decimal
places) and rejection_ratio with two decimal places, but avg_time_hours
is formatted with ONE decimal place (it appears in the cluster-0 and
cluster-2 templates only); concretely, rendering the cluster-0 template
against the feature vector (2, 1.5, 3, 0.05, 88) produces the insight
text with 2, 1.5, 3 and 88 substituted. -/
theorem c3_amended_display_formats :
    slotPrecs template0 =
      [("active_days", 0), ("avg_time_hours", 1), ("journeys", 0), ("score", 0)] ∧
    slotPrecs template1 =
      [("active_days", 0), ("journeys", 0), ("score", 0), ("rejection_ratio", 2)] ∧
    slotPrecs template2 =
      [("active_days", 0), ("journeys", 0), ("avg_time_hours", 1), ("score", 0)] ∧
    slotPrecs template3 =
      [("active_days", 0), ("journeys", 0), ("score", 0), ("rejection_ratio", 2)] ∧
    generate_insight_for_row row0 = .ok
      { developer_id := 1, developer_name := "Alice", cluster_id := 0,
        cluster_label := "Fast Learner", concept_tag := some "fast_learner",
        short_description := "Aktivitas belajar masih jarang, tetapi ketika mulai belajar mampu menyelesaikan modul dengan sangat cepat dan mempertahankan nilai ujian yang cukup baik. Volume journey relatif rendah dan hampir tidak ada revisi submission.",
        insight_text := "Aktivitas belajarmu masih jarang (sekitar 2 hari aktif), tetapi ketika mulai belajar kamu bergerak sangat cepat dengan rata-rata waktu selesai sekitar 1.5 jam per modul. Kamu telah menyelesaikan sekitar 3 journey dengan nilai ujian rata-rata 88. Cobalah meningkatkan frekuensi belajar agar dampak pembelajaranmu lebih konsisten." } :=
  ⟨rfl, rfl, rfl, rfl, by set_option maxRecDepth 4000 in rfl⟩

/-- Claim C4: with the dataset snapshot loaded, looking up an insight by
developer id returns a result whose developer_id equals the requested id
when some row carries that id, and the 404 NotFound error — never a
result and never another error kind — when no row does. -/
theorem c4_lookup_found_or_not_found (so : Option Scaler) (ko : Option KMeans)
    (df : List Row) (developer_id : ℤ) :
    ((∃ r ∈ df, r.developer_id = developer_id) →
      ∃ res,
        get_insight_by_developer_id
          { scaler := so, kmeans := ko, df_clustered := some df } developer_id =
          .ok res ∧
        res.developer_id = developer_id) ∧
    ((∀ r ∈ df, r.developer_id ≠ developer_id) →
      get_insight_by_developer_id
        { scaler := so, kmeans := ko, df_clustered := some df } developer_id =
        .error (.http 404 "Developer ID tidak ditemukan di data clustering.")) := by
  constructor
  · rintro ⟨r0, hr0, hid⟩
    cases hf : df.filter (fun r => r.developer_id == developer_id) with
    | nil =>
        exfalso
        have hmem : r0 ∈ df.filter (fun r => r.developer_id == developer_id) :=
          List.mem_filter.mpr ⟨hr0, by simpa using hid⟩
        rw [hf] at hmem
        simp at hmem
    | cons r rest =>
        have hmem : r ∈ df.filter (fun r => r.developer_id == developer_id) := by
          rw [hf]; exact List.mem_cons_self r rest
        have hid' : r.developer_id = developer_id := by
          simpa using (List.mem_filter.mp hmem).2
        refine ⟨genRow r, ?_, ?_⟩
        · simp only [get_insight_by_developer_id, hf, generate_insight_ok r]
        · rw [(genRow_fields r).1, hid']
  · intro habs
    cases hf : df.filter (fun r => r.developer_id == developer_id) with
    | nil => simp only [get_insight_by_developer_id, hf]
    | cons r rest =>
        exfalso
        have hmem : r ∈ df.filter (fun r => r.developer_id == developer_id) := by
          rw [hf]; exact List.mem_cons_self r rest
        have hp := List.mem_filter.mp hmem
        exact habs r hp.1 (by simpa using hp.2)

/-- Witness for the C4 theorem on a concrete two-row dataset. -/
theorem c4_witness :
    (∃ res,
      get_insight_by_developer_id
        { scaler := none, kmeans := none, df_clustered := some dfW } 2 =
        .ok res ∧
      res.developer_id = 2) ∧
    get_insight_by_developer_id
      { scaler := none, kmeans := none, df_clustered := some dfW } 99 =
      .error (.http 404 "Developer ID tidak ditemukan di data clustering.") :=
  ⟨(c4_lookup_found_or_not_found none none dfW 2).1 ⟨rowB, by decide, rfl⟩,
   (c4_lookup_found_or_not_found none none dfW 99).2 (by decide)⟩

/-- Claim C5: with the dataset snapshot of n rows loaded, listing
insights with a limit in 1..100 returns exactly min(limit, n) records,
the insights of the first rows of the snapshot in stored order; a limit
outside 1..100 is rejected with a 422 whatever the dataset state; and an
omitted limit defaults to 10. -/
theorem c5_list_insights_order_and_range (so : Option Scaler) (ko : Option KMeans)
    (df : List Row) (limit : ℤ) :
    ((1 ≤ limit ∧ limit ≤ 100) →
      list_insights { scaler := so, kmeans := ko, df_clustered := some df } limit =
        .ok ((df.take limit.toNat).map genRow) ∧
      ((df.take limit.toNat).map genRow).length = min limit.toNat df.length) ∧
    ((limit < 1 ∨ limit > 100) →
      ∀ dfo, list_insights { scaler := so, kmeans := ko, df_clustered := dfo } limit =
        .error (.http 422 "limit out of allowed range 1..100")) ∧
    (∀ st : AppState, list_insights_route st none = list_insights st 10) := by
  refine ⟨?_, ?_, ?_⟩
  · rintro ⟨hlo, hhi⟩
    have hcond : ¬ (limit < 1 ∨ limit > 100) := by omega
    constructor
    · simp only [list_insights, hcond, if_false, insightsForRows_ok]
    · rw [List.length_map, List.length_take]
  · intro hcond dfo
    simp only [list_insights, hcond, if_true]
  · intro st
    rfl

/-- Witness for the C5 theorem at limits 5 and 150 on a concrete dataset. -/
theorem c5_witness :
    (list_insights { scaler := none, kmeans := none, df_clustered := some dfW } 5 =
      .ok ((dfW.take (5 : ℤ).toNat).map genRow) ∧
     ((dfW.take (5 : ℤ).toNat).map genRow).length = min (5 : ℤ).toNat dfW.length) ∧
    list_insights { scaler := none, kmeans := none, df_clustered := some dfW } 150 =
      .error (.http 422 "limit out of allowed range 1..100") :=
  ⟨(c5_list_insights_order_and_range none none dfW 5).1 ⟨by decide, by decide⟩,
   (c5_list_insights_order_and_range none none dfW 150).2.1 (by decide) (some dfW)⟩

/-- Claim C7: predict is deterministic — two payloads with identical
feature values (whatever their identity fields) either fail with the
same error or both succeed with identical cluster_id, cluster_label,
short_description and insight_text; the computation is a pure function
of the state and payload, so the resolver step cannot mutate any shared
state. -/
theorem c7_predict_deterministic (st : AppState) (p1 p2 : PredictRequest)
    (h1 : p1.total_active_days = p2.total_active_days)
    (h2 : p1.avg_completion_time_hours = p2.avg_completion_time_hours)
    (h3 : p1.total_journeys_completed = p2.total_journeys_completed)
    (h4 : p1.rejection_ratio = p2.rejection_ratio)
    (h5 : p1.avg_exam_score = p2.avg_exam_score) :
    (∀ e, predict_cluster st p1 = .error e ↔ predict_cluster st p2 = .error e) ∧
    (∀ r1 r2, predict_cluster st p1 = .ok r1 → predict_cluster st p2 = .ok r2 →
      r1.cluster_id = r2.cluster_id ∧
      r1.cluster_label = r2.cluster_label ∧
      r1.short_description = r2.short_description ∧
      r1.insight_text = r2.insight_text) := by
  obtain ⟨so, ko, dfo⟩ := st
  cases so with
  | none => simp [predict_cluster]
  | some sc =>
      cases ko with
      | none => simp [predict_cluster]
      | some km =>
          constructor
          · intro e
            rw [predict_cluster_some, predict_cluster_some]
            constructor <;> intro h <;> exact absurd h (by simp)
          · intro r1 r2 hr1 hr2
            rw [predict_cluster_some] at hr1 hr2
            injection hr1 with hr1
            injection hr2 with hr2
            subst hr1
            subst hr2
            refine ⟨?_, ?_, ?_, ?_⟩ <;> simp only [h1, h2, h3, h4, h5]

/-- Witness for the C7 theorem on two payloads sharing features. -/
theorem c7_witness :
    predict_cluster { scaler := some scId, kmeans := some km7, df_clustered := none }
        payloadW = .ok
      { developer_id := some 9, developer_name := some "Unknown", cluster_id := 7,
        cluster_label := "Cluster 7", concept_tag := none, short_description := "",
        insight_text := "" } ∧
    predict_cluster { scaler := some scId, kmeans := some km7, df_clustered := none }
        payloadEmptyName = .ok
      { developer_id := some 9, developer_name := some "Unknown", cluster_id := 7,
        cluster_label := "Cluster 7", concept_tag := none, short_description := "",
        insight_text := "" } ∧
    ((7 : ℤ) = 7 ∧ "Cluster 7" = "Cluster 7" ∧ ("" : String) = "" ∧ ("" : String) = "") := by
  refine ⟨by rfl, by rfl, ?_⟩
  exact (c7_predict_deterministic
    { scaler := some scId, kmeans := some km7, df_clustered := none }
    payloadW payloadEmptyName rfl rfl rfl rfl rfl).2
    { developer_id := some 9, developer_name := some "Unknown", cluster_id := 7,
      cluster_label := "Cluster 7", concept_tag := none, short_description := "",
      insight_text := "" }
    { developer_id := some 9, developer_name := some "Unknown", cluster_id := 7,
      cluster_label := "Cluster 7", concept_tag := none, short_description := "",
      insight_text := "" }
    (by rfl) (by rfl)

/-- Claim C8: for any known cluster id, formatting its insight template
succeeds (produces a string) for every feature vector, whatever the five
float values — finite of any magnitude or non-finite; non-finite values
do not crash formatting but render as the literal texts nan, inf and
-inf. -/
theorem c8_formatting_never_fails (cid : ℤ) (t : List Seg)
    (ht : dictGet CLUSTER_TEMPLATES cid = some t)
    (a b c d e : PFloat) :
    (∃ s, renderTemplate
      [("active_days", a), ("avg_time_hours", b), ("journeys", c),
       ("rejection_ratio", d), ("score", e)] t = .ok s) ∧
    (∀ prec, PFloat.formatFixed prec .nan = "nan" ∧
      PFloat.formatFixed prec .inf = "inf" ∧
      PFloat.formatFixed prec .neginf = "-inf") := by
  constructor
  · apply renderTemplate_ok
    have hg : (dictGet CLUSTER_TEMPLATES cid).getD [] = t := by rw [ht]; rfl
    have h := templates_slots_ok cid
    rw [hg] at h
    exact h
  · intro prec
    exact ⟨rfl, rfl, rfl⟩

/-- Witness for the C8 theorem on the cluster-0 template with non-finite values. -/
theorem c8_witness :
    ∃ s, renderTemplate
      [("active_days", PFloat.nan), ("avg_time_hours", PFloat.inf),
       ("journeys", PFloat.finite 3), ("rejection_ratio", PFloat.neginf),
       ("score", PFloat.finite 88)] template0 = .ok s :=
  (c8_formatting_never_fails 0 template0 rfl
    .nan .inf (.finite 3) .neginf (.finite 88)).1

/-- Claim C9: all three artifacts are loaded in one try block whose
handler clears all of them, so a failure of any single artifact —
scaler, model, or dataset (including its required-column check) — leaves
scaler, kmeans and the dataframe all None; hence health always reports
model_loaded equal to data_loaded, and a dataset-only failure also makes
predict fail with the ModelUnavailable 500. -/
theorem c9_artifact_loading_coupled (sres : Except String Scaler)
    (kres : Except String KMeans) (dres : Except String RawDf) :
    ((loadArtifacts sres kres dres).scaler = none ∨
     (loadArtifacts sres kres dres).kmeans = none ∨
     (loadArtifacts sres kres dres).df_clustered = none →
      (loadArtifacts sres kres dres).scaler = none ∧
      (loadArtifacts sres kres dres).kmeans = none ∧
      (loadArtifacts sres kres dres).df_clustered = none) ∧
    ((health_check (loadArtifacts sres kres dres)).model_loaded =
      (health_check (loadArtifacts sres kres dres)).data_loaded) ∧
    (∀ (emsg : String) (payload : PredictRequest), dres = .error emsg →
      predict_cluster (loadArtifacts sres kres dres) payload =
        .error (.http 500 "Model belum ter-load.")) := by
  cases sres with
  | error es => simp [loadArtifacts, health_check, predict_cluster]
  | ok sc =>
      cases kres with
      | error ek => simp [loadArtifacts, health_check, predict_cluster]
      | ok km =>
          cases dres with
          | error ed => simp [loadArtifacts, health_check, predict_cluster]
          | ok df =>
              simp only [loadArtifacts]
              split
              · refine ⟨?_, by simp [health_check], ?_⟩
                · rintro (h | h | h) <;> simp at h
                · intro emsg payload h
                  exact absurd h (by simp)
              · refine ⟨fun _ => ⟨rfl, rfl, rfl⟩, by simp [health_check], ?_⟩
                intro emsg payload h
                exact absurd h (by simp)

/-- Witness for the C9 theorem with a failed dataset load only. -/
theorem c9_witness :
    predict_cluster
      (loadArtifacts (.ok scId) (.ok km7) (.error "file not found"))
      payloadW =
      .error (.http 500 "Model belum ter-load.") :=
  (c9_artifact_loading_coupled (.ok scId) (.ok km7) (.error "file not found")).2.2
    "file not found" payloadW rfl
